import Mathlib

/-!
Shallow embedding of the IP-route
mapping/versioning layer (package `interfaces`, file with `GetIPRoute`,
`CreateIPRoute`, `DeleteIPRoute`), of the `IPRouteResource` binding layer
(`Read`, `Create`, `Update`, `Delete`), and of the
`StorageVolumeSnapshotDataSource.Read` data-source, together with proofs
of the testable properties stated by the spec.

Machine integers of the Go source (`int64`) are embedded as `Int`; none of
the embedded code performs arithmetic that can overflow, so no modular
reduction is needed.  Fallible Go code returning `(value, error)` pairs is
embedded as `Except`/`Option`; the Go runtime panic reachable in
`CreateIPRoute` (indexing `response.Records[0]` on an empty slice) is made
explicit as a distinguished outcome constructor.
-/

namespace NetAppOntap

/-- An untyped nested record value, as handed over by the REST transport:
objects with string keys whose values are scalars or nested objects
(`map[string]interface{}` in the Go source). -/
inductive RawValue where
  | str : String → RawValue
  | int : Int → RawValue
  | obj : List (String × RawValue) → RawValue

/-- Association-list lookup inside a raw object, first binding wins
(Go maps have unique keys, so the encodings below never duplicate keys). -/
def rawLookup : List (String × RawValue) → String → Option RawValue
  | [], _ => none
  | (k, v) :: rest, key => if k == key then some v else rawLookup rest key

/-- A REST query: filter parameters plus a field-projection list.
Embeds the restclient query object built by `r.NewQuery()`. -/
structure Query where
  parameters : List (String × String)
  fieldsList : List String
deriving DecidableEq, Repr

/-- Embeds `r.NewQuery()`: an empty query. -/
def Query.new : Query := ⟨[], []⟩

/-- Modelled from the spec: `query.Set(key, value)` replaces any existing
value for that key (Query Builder contract; the restclient implementation
is not part of the sources under study). -/
def Query.set (q : Query) (key value : String) : Query :=
  { q with parameters := q.parameters.filter (fun p => p.1 != key) ++ [(key, value)] }

/-- Modelled from the spec: `query.Add(key, value)` appends to a
multi-valued filter. -/
def Query.add (q : Query) (key value : String) : Query :=
  { q with parameters := q.parameters ++ [(key, value)] }

/-- Modelled from the spec: `query.Fields(list)` sets the field-projection
list, overwriting any prior projection. -/
def Query.fieldsProj (q : Query) (fs : List String) : Query :=
  { q with fieldsList := fs }

/-- The value a query carries for a filter key (unique keys under `set`). -/
def Query.getParam (q : Query) (key : String) : Option String :=
  (q.parameters.find? (fun p => p.1 == key)).map (fun p => p.2)

/-- Embeds `versionModelONTAP`: the (generation, major, minor) reported by the cluster. -/
structure VersionModelONTAP where
  Generation : Int
  Major : Int
  Minor : Int
deriving DecidableEq, Repr

/-- Embeds `Vserver`: the owning virtual-server reference sub-record, mapstructure
key `name` (declared elsewhere in the `interfaces` package; its single
`Name` field is the one the sources read and decode). -/
structure Vserver where
  Name : String
deriving DecidableEq, Repr

/-- Embeds `DestinationDataSourceModel` of the interfaces package: destination
sub-record with mapstructure keys `address` and `netmask`. -/
structure DestinationDataSourceModel where
  Address : String
  Netmask : String
deriving DecidableEq, Repr

/-- Embeds `IPRouteGetDataModelONTAP`: the typed GET record; mapstructure keys
`destination`, `uuid`, `gateway`, `metric`, `svm`. -/
structure IPRouteGetDataModelONTAP where
  Destination : DestinationDataSourceModel
  UUID : String
  Gateway : String
  Metric : Int
  SVMName : Vserver
deriving DecidableEq, Repr

/-- Embeds `IPRouteResourceBodyDataModelONTAP`: the typed POST body; mapstructure
keys `destination`, `svm`, `gateway`, `metric`. -/
structure IPRouteResourceBodyDataModelONTAP where
  Destination : DestinationDataSourceModel
  SVM : Vserver
  Gateway : String
  Metric : Int
deriving DecidableEq, Repr

/-- A classified error: the (summary, detail) pair handed to
`errorHandler.MakeAndReportError`. -/
structure ClassifiedError where
  summary : String
  detail : String
deriving DecidableEq, Repr

/-- Decode a string field: a missing key leaves the Go zero value `""`
(the behaviour of mapstructure on absent keys); a non-string value is a type
mismatch and fails the whole decode. -/
def decodeStringField : Option RawValue → Option String
  | none => some ""
  | some (.str s) => some s
  | some _ => none

/-- Decode an int64 field: missing key gives zero, non-int fails. -/
def decodeIntField : Option RawValue → Option Int
  | none => some 0
  | some (.int n) => some n
  | some _ => none

/-- Decode the nested `destination` sub-object. -/
def decodeDestination : Option RawValue → Option DestinationDataSourceModel
  | none => some ⟨"", ""⟩
  | some (.obj m) => do
      let address ← decodeStringField (rawLookup m "address")
      let netmask ← decodeStringField (rawLookup m "netmask")
      some ⟨address, netmask⟩
  | some _ => none

/-- Decode the nested `svm` sub-object. -/
def decodeVserver : Option RawValue → Option Vserver
  | none => some ⟨""⟩
  | some (.obj m) => do
      let name ← decodeStringField (rawLookup m "name")
      some ⟨name⟩
  | some _ => none

/-- Embeds `mapstructure.Decode(response, &dataONTAP)` for
`IPRouteGetDataModelONTAP`: per-field mapping from a raw object, nested
sub-objects decoded recursively; the whole record decodes or the decode
fails. -/
def decodeIPRouteGet : RawValue → Option IPRouteGetDataModelONTAP
  | .obj m => do
      let destination ← decodeDestination (rawLookup m "destination")
      let uuid ← decodeStringField (rawLookup m "uuid")
      let gateway ← decodeStringField (rawLookup m "gateway")
      let metric ← decodeIntField (rawLookup m "metric")
      let svm ← decodeVserver (rawLookup m "svm")
      some ⟨destination, uuid, gateway, metric, svm⟩
  | _ => none

/-- The raw nested key/value form of an `IPRouteGetDataModelONTAP` record,
following its mapstructure field tags (the same convention
`mapstructure.Decode` uses in both directions). -/
def encodeIPRouteGet (r : IPRouteGetDataModelONTAP) : RawValue :=
  .obj [("destination", .obj [("address", .str r.Destination.Address),
                              ("netmask", .str r.Destination.Netmask)]),
        ("uuid", .str r.UUID),
        ("gateway", .str r.Gateway),
        ("metric", .int r.Metric),
        ("svm", .obj [("name", .str r.SVMName.Name)])]

/-- Embeds `mapstructure.Decode(body, &bodyMap)` in `CreateIPRoute`: the body
struct encoded to a raw map following its mapstructure field tags (this
encoding of a plain struct cannot fail). -/
def encodeIPRouteBody (body : IPRouteResourceBodyDataModelONTAP) : RawValue :=
  .obj [("destination", .obj [("address", .str body.Destination.Address),
                              ("netmask", .str body.Destination.Netmask)]),
        ("svm", .obj [("name", .str body.SVM.Name)]),
        ("gateway", .str body.Gateway),
        ("metric", .int body.Metric)]

/-- Result of `r.GetNilOrOneRecord`: status code, optional single raw
record, optional transport error text. -/
structure RestGetResult where
  statusCode : Nat
  response : Option RawValue
  err : Option String

/-- Modelled from the spec: the restclient function `GetNilOrOneRecord` (not part
of the sources under study) resolves cardinality for zero-or-one reads:
zero records is absence (null record, no error), exactly one record is
returned, and more than one record fails with an AmbiguousResult error. -/
def GetNilOrOneRecord (statusCode : Nat) (records : List RawValue) : RestGetResult :=
  match records with
  | [] => ⟨statusCode, none, none⟩
  | [r] => ⟨statusCode, some r, none⟩
  | _ :: _ :: _ => ⟨statusCode, none, some "AmbiguousResultError: more than one record"⟩

/-- Query construction of `GetIPRoute` (source lines setting
`destination.address`, `scope` and `svm.name`): the filter part of the
query before field projection. -/
def buildIPRouteQuery (Destination svmName : String) : Query :=
  let query := Query.new.set "destination.address" Destination
  if svmName == "" then
    query.set "scope" "cluster"
  else
    (query.set "svm.name" svmName).set "scope" "svm"

/-- Field projection of `GetIPRoute`: the base fields, with `metric`
appended when `version.Generation == 9 && version.Major > 10`. -/
def ipRouteFields (version : VersionModelONTAP) : List String :=
  let fields := ["destination", "svm.name", "gateway", "scope"]
  if version.Generation = 9 ∧ version.Major > 10 then fields ++ ["metric"] else fields

/-- Embeds `GetIPRoute`: builds the query, projects version-gated fields, invokes
the transport (`r.GetNilOrOneRecord`, abstracted as a function of the
query), converts a nil response with nil error into an error, classifies
transport failures, and decodes the single raw record.  The Go detail of
the decode failure also renders the raw response via `%#v`; the embedding
keeps the leading text and the status code of that detail. -/
def GetIPRoute (Destination svmName : String) (version : VersionModelONTAP)
    (transport : Query → RestGetResult) :
    Except ClassifiedError IPRouteGetDataModelONTAP :=
  let api := "/network/ip/routes"
  let query := (buildIPRouteQuery Destination svmName).fieldsProj (ipRouteFields version)
  let result := transport query
  match result.err, result.response with
  | some e, _ =>
      .error ⟨"error reading /network/ip/routes info",
              "error on GET " ++ api ++ ": " ++ e ++ ", statusCode " ++
                toString result.statusCode⟩
  | none, none =>
      .error ⟨"error reading /network/ip/routes info",
              "error on GET " ++ api ++ ": " ++ ("no response for GET " ++ api) ++
                ", statusCode " ++ toString result.statusCode⟩
  | none, some response =>
      match decodeIPRouteGet response with
      | none =>
          .error ⟨"failed to decode response from GET " ++ api,
                  "error: cannot decode response, statusCode " ++
                    toString result.statusCode⟩
      | some dataONTAP => .ok dataONTAP

/-- The record-list envelope of a POST response (`response.Records`). -/
structure CreateResponse where
  Records : List RawValue

/-- Result of `r.CallCreateMethod`: status code, envelope, optional error. -/
structure RestCreateResult where
  statusCode : Nat
  response : CreateResponse
  err : Option String

/-- Outcome of `CreateIPRoute`: a typed record, a classified error, or the
Go runtime panic reachable by indexing `response.Records[0]` on an empty
record list. -/
inductive CreateOutcome where
  | ok : IPRouteGetDataModelONTAP → CreateOutcome
  | err : ClassifiedError → CreateOutcome
  | indexPanic : CreateOutcome

/-- Embeds `CreateIPRoute`: encodes the body, adds `return_records=true`, invokes
the transport (`r.CallCreateMethod`, abstracted as a function of query and
body), classifies transport failures, and decodes `response.Records[0]` —
an access the source leaves unguarded, so an empty record list is the
`indexPanic` outcome.  The Go decode-failure detail also renders the raw
response via `%#v`; the embedding keeps the leading text and status code. -/
def CreateIPRoute (body : IPRouteResourceBodyDataModelONTAP)
    (transport : Query → RawValue → RestCreateResult) : CreateOutcome :=
  let api := "/network/ip/routes"
  let bodyMap := encodeIPRouteBody body
  let query := Query.new.add "return_records" "true"
  let result := transport query bodyMap
  match result.err with
  | some e =>
      .err ⟨"error creating /network/ip/routes",
            "error on POST " ++ api ++ ": " ++ e ++ ", statusCode " ++
              toString result.statusCode⟩
  | none =>
      match result.response.Records.head? with
      | none => .indexPanic
      | some r0 =>
          match decodeIPRouteGet r0 with
          | none =>
              .err ⟨"error decoding /network/ip/routes info",
                    "error on decode /network/ip/routes info: cannot decode response, statusCode " ++
                      toString result.statusCode⟩
          | some dataONTAP => .ok dataONTAP

/-- Result of `r.CallDeleteMethod`: status code and optional error. -/
structure RestDeleteResult where
  statusCode : Nat
  err : Option String

/-- A transport interaction, recorded by path to state frame conditions
(which REST calls an operation performs). -/
inductive TransportCall where
  | getCall : String → TransportCall
  | createCall : String → TransportCall
  | deleteCall : String → TransportCall
deriving DecidableEq, Repr

/-- Embeds `DeleteIPRoute`: issues a DELETE on `api + "/" + uuid` and classifies a
transport failure; returns the classified error (if any) together with the
transport calls performed. -/
def DeleteIPRoute (uuid : String) (transport : String → RestDeleteResult) :
    Option ClassifiedError × List TransportCall :=
  let api := "/network/ip/routes"
  let result := transport (api ++ "/" ++ uuid)
  match result.err with
  | some e =>
      (some ⟨"error deleting /network/ip/routes",
             "error on DELETE " ++ api ++ ": " ++ e ++ ", statusCode " ++
               toString result.statusCode⟩,
       [.deleteCall (api ++ "/" ++ uuid)])
  | none => (none, [.deleteCall (api ++ "/" ++ uuid)])

/-- Embeds `types.String` of the terraform plugin framework: null, unknown, or a
known string value. -/
inductive TFString where
  | null
  | unknown
  | value : String → TFString
deriving DecidableEq, Repr

/-- Helper: tf string of a known value (`types.StringValue`). -/
def TFString.StringValue (s : String) : TFString := .value s

/-- Embeds `IsNull()` on a `types.String`. -/
def TFString.IsNull : TFString → Bool
  | .null => true
  | _ => false

/-- Embeds `ValueString()` on a `types.String`: the known value, `""` otherwise. -/
def TFString.ValueString : TFString → String
  | .value s => s
  | _ => ""

/-- Embeds `types.Int64` of the terraform plugin framework. -/
inductive TFInt64 where
  | null
  | unknown
  | value : Int → TFInt64
deriving DecidableEq, Repr

/-- Helper: tf int64 of a known value (`types.Int64Value`). -/
def TFInt64.Int64Value (n : Int) : TFInt64 := .value n

/-- Embeds `IsNull()` on a `types.Int64`. -/
def TFInt64.IsNull : TFInt64 → Bool
  | .null => true
  | _ => false

/-- Embeds `ValueInt64()` on a `types.Int64`: the known value, `0` otherwise. -/
def TFInt64.ValueInt64 : TFInt64 → Int
  | .value n => n
  | _ => 0

/-- Embeds the `DestinationDataSourceModel` owned by the provider package (distinct from
the interfaces one): tfsdk attributes `address` and `netmask`, both
`types.String` (declared elsewhere in the provider package; its two fields
are the ones `IPRouteResource` reads and writes). -/
structure ProviderDestinationModel where
  Address : TFString
  Netmask : TFString
deriving DecidableEq, Repr

/-- Embeds `IPRouteResourceModel`: the terraform resource data model; `Destination`
is a pointer in Go, hence `Option`. -/
structure IPRouteResourceModel where
  CxProfileName : TFString
  SVMName : TFString
  Destination : Option ProviderDestinationModel
  Gateway : TFString
  Metric : TFInt64
  UUID : TFString
deriving DecidableEq, Repr

/-- Outcome of `IPRouteResource.Read`: an early return that leaves the
state unset, the Go nil-pointer panic from dereferencing a nil
`Destination`, or the new state written by `resp.State.Set`. -/
inductive ReadOutcome where
  | noState
  | nilPointerPanic
  | newState : IPRouteResourceModel → ReadOutcome
deriving DecidableEq, Repr

/-- Embeds `IPRouteResource.Read`: reads prior state (`stateGet`, `none` when
`req.State.Get` produced diagnostics), builds the client (`clientOk`
abstracts `getRestClient`), fetches the cluster version (`clusterResult`
abstracts `interfaces.GetCluster`), calls `interfaces.GetIPRoute`, and on
success overwrites the destination, gateway, metric and svm-name fields of
the prior state before saving it. -/
def IPRouteResourceRead (stateGet : Option IPRouteResourceModel) (clientOk : Bool)
    (clusterResult : Option VersionModelONTAP)
    (transport : Query → RestGetResult) : ReadOutcome :=
  match stateGet with
  | none => .noState
  | some data =>
      if !clientOk then .noState
      else
        match clusterResult with
        | none => .noState
        | some version =>
            match data.Destination with
            | none => .nilPointerPanic
            | some destination =>
                match GetIPRoute destination.Address.ValueString
                    data.SVMName.ValueString version transport with
                | .error _ => .noState
                | .ok restInfo =>
                    .newState { data with
                      Destination := some ⟨TFString.StringValue restInfo.Destination.Address,
                                           TFString.StringValue restInfo.Destination.Netmask⟩,
                      Gateway := TFString.StringValue restInfo.Gateway,
                      Metric := TFInt64.Int64Value restInfo.Metric,
                      SVMName := TFString.StringValue restInfo.SVMName.Name }

/-- Embeds `IPRouteResource.Update`: reads the plan (`planGet`, `none` when
`req.Plan.Get` produced diagnostics) and saves it unchanged as the new
state; the source performs no client construction and no REST call, which
the empty transport-call trace records. -/
def IPRouteResourceUpdate (planGet : Option IPRouteResourceModel) :
    Option IPRouteResourceModel × List TransportCall :=
  match planGet with
  | none => (none, [])
  | some data => (some data, [])

/-- Embeds `IPRouteResource.Delete`: reads prior state, builds the client, rejects
a null UUID with the classified error ("UUID is null",
"ip_interface UUID is null") before any delete is issued, and otherwise
calls `interfaces.DeleteIPRoute`.  Returns the classified errors this body
reports and the transport calls performed. -/
def IPRouteResourceDelete (stateGet : Option IPRouteResourceModel) (clientOk : Bool)
    (transport : String → RestDeleteResult) :
    List ClassifiedError × List TransportCall :=
  match stateGet with
  | none => ([], [])
  | some data =>
      if !clientOk then ([], [])
      else if data.UUID.IsNull then
        ([⟨"UUID is null", "ip_interface UUID is null"⟩], [])
      else
        match DeleteIPRoute data.UUID.ValueString transport with
        | (some e, calls) => ([e], calls)
        | (none, calls) => ([], calls)

/-- Embeds `types.Float64` of the terraform plugin framework. -/
inductive TFFloat64 where
  | null
  | unknown
  | value : Float → TFFloat64
deriving Repr

/-- Helper: tf float64 of a known value (`types.Float64Value`). -/
def TFFloat64.Float64Value (x : Float) : TFFloat64 := .value x

/-- The `volume` sub-record of a snapshot GET record (uuid and name). -/
structure SnapshotVolume where
  UUID : String
  Name : String
deriving DecidableEq, Repr

/-- Modelled from the spec: the typed snapshot GET record returned by
`interfaces.GetStorageVolumeSnapshots` (not part of the sources under
study); its fields are exactly the ones the data-source `Read` copies out. -/
structure StorageVolumeSnapshotGetDataModelONTAP where
  CreateTime : String
  Comment : String
  ExpiryTime : String
  Name : String
  Size : Float
  SnapmirrorLabel : String
  State : String
  Volume : SnapshotVolume
deriving Repr

/-- Embeds `StorageVolumeSnapshotDataSourceModel`: the data-source data model. -/
structure StorageVolumeSnapshotDataSourceModel where
  CxProfileName : TFString
  CreateTime : TFString
  Comment : TFString
  ExpiryTime : TFString
  Name : TFString
  Size : TFFloat64
  SnapmirrorLabel : TFString
  State : TFString
  VolumeUUID : TFString
  VolumeName : TFString
deriving Repr

/-- Modelled from the spec: `interfaces.GetStorageVolumeSnapshots` (not
part of the sources under study) is a zero-or-one read over the records
matching (name, volume uuid): zero records is absence (null record, no
error), one record is returned, more than one fails with an
AmbiguousResult classified error. -/
def GetStorageVolumeSnapshots
    (records : List StorageVolumeSnapshotGetDataModelONTAP) :
    Except ClassifiedError (Option StorageVolumeSnapshotGetDataModelONTAP) :=
  match records with
  | [] => .ok none
  | [r] => .ok (some r)
  | _ :: _ :: _ =>
      .error ⟨"error reading snapshot", "AmbiguousResultError: more than one record"⟩

/-- Embeds `StorageVolumeSnapshotDataSource.Read`: reads the configuration
(`configGet`, `none` when `req.Config.Get` produced diagnostics), builds
the client (`clientOk`), rejects null name and null volume uuid, fetches
the snapshot (`records` are the matching transport records, resolved by
`GetStorageVolumeSnapshots`), reports "No snapshot found" when the
snapshot is nil, and otherwise copies the record into the state.  Returns
the classified errors this body reports and the state it saves (if any). -/
def StorageVolumeSnapshotRead (configGet : Option StorageVolumeSnapshotDataSourceModel)
    (clientOk : Bool) (records : List StorageVolumeSnapshotGetDataModelONTAP) :
    List ClassifiedError × Option StorageVolumeSnapshotDataSourceModel :=
  match configGet with
  | none => ([], none)
  | some data =>
      if !clientOk then ([], none)
      else if data.Name.IsNull then
        ([⟨"error reading snapshot", "Snapshot name is null"⟩], none)
      else if data.VolumeUUID.IsNull then
        ([⟨"error reading snapshot", "Volume UUID is null"⟩], none)
      else
        match GetStorageVolumeSnapshots records with
        | .error _ => ([], none)
        | .ok none =>
            ([⟨"No snapshot found",
               "snapshot " ++ data.Name.ValueString ++ " not found."⟩], none)
        | .ok (some snapshot) =>
            ([], some { data with
              CreateTime := TFString.StringValue snapshot.CreateTime,
              Comment := TFString.StringValue snapshot.Comment,
              ExpiryTime := TFString.StringValue snapshot.ExpiryTime,
              Name := TFString.StringValue snapshot.Name,
              Size := TFFloat64.Float64Value snapshot.Size,
              SnapmirrorLabel := TFString.StringValue snapshot.SnapmirrorLabel,
              State := TFString.StringValue snapshot.State,
              VolumeUUID := TFString.StringValue snapshot.Volume.UUID,
              VolumeName := TFString.StringValue snapshot.Volume.Name })

/-- Holds when `pat` occurs as a contiguous substring of `s`. -/
def strContains (s pat : String) : Prop := ∃ a b : String, s = a ++ pat ++ b

/-- C3: the field-projection list built by `GetIPRoute` contains the
version-gated field "metric" exactly once iff the cluster version has
generation 9 and major greater than 10, and for every other version triple
the projection list is exactly the base field set
["destination", "svm.name", "gateway", "scope"]. -/
theorem getIPRoute_metric_version_gate (v : VersionModelONTAP) :
    ((ipRouteFields v).count "metric" = 1 ↔ v.Generation = 9 ∧ v.Major > 10) ∧
    (¬(v.Generation = 9 ∧ v.Major > 10) →
      ipRouteFields v = ["destination", "svm.name", "gateway", "scope"]) := by
  unfold ipRouteFields
  by_cases h : v.Generation = 9 ∧ v.Major > 10
  · rw [if_pos h]
    exact ⟨iff_of_true (by decide) h, fun hc => absurd h hc⟩
  · rw [if_neg h]
    exact ⟨iff_of_false (by decide) h, fun _ => rfl⟩

/-- C3 witness: for version (9, 11, 1) the projection contains "metric"
exactly once; for version (9, 8, 1) the projection is the base field set. -/
theorem getIPRoute_metric_version_gate_witness :
    (ipRouteFields ⟨9, 11, 1⟩).count "metric" = 1 ∧
    ipRouteFields ⟨9, 8, 1⟩ = ["destination", "svm.name", "gateway", "scope"] :=
  ⟨(getIPRoute_metric_version_gate ⟨9, 11, 1⟩).1.mpr (by decide),
   (getIPRoute_metric_version_gate ⟨9, 8, 1⟩).2 (by decide)⟩

/-- C7: the query built by `GetIPRoute` always carries
`destination.address` set to the given destination; with no owning virtual
server (empty name) it carries `scope=cluster` and no `svm.name` filter;
with a virtual server name it carries `svm.name` set to that name and
`scope=svm`. -/
theorem getIPRoute_query_construction (Destination svmName : String) :
    (buildIPRouteQuery Destination svmName).getParam "destination.address" = some Destination ∧
    (svmName = "" →
      (buildIPRouteQuery Destination svmName).getParam "scope" = some "cluster" ∧
      (buildIPRouteQuery Destination svmName).getParam "svm.name" = none) ∧
    (svmName ≠ "" →
      (buildIPRouteQuery Destination svmName).getParam "svm.name" = some svmName ∧
      (buildIPRouteQuery Destination svmName).getParam "scope" = some "svm") := by
  by_cases h : svmName = ""
  · subst h
    exact ⟨rfl, fun _ => ⟨rfl, rfl⟩, fun hn => absurd rfl hn⟩
  · have hb : (svmName == "") = false := beq_eq_false_iff_ne.mpr h
    have hq : buildIPRouteQuery Destination svmName =
        ((Query.new.set "destination.address" Destination).set "svm.name" svmName).set
          "scope" "svm" := by
      unfold buildIPRouteQuery
      rw [hb]
      rfl
    rw [hq]
    exact ⟨rfl, fun he => absurd he h, fun _ => ⟨rfl, rfl⟩⟩

/-- C7 witness: for destination "10.0.0.0/24" with no virtual server the
query carries scope=cluster and no svm.name; with virtual server "svm1" it
carries svm.name=svm1 and scope=svm. -/
theorem getIPRoute_query_construction_witness :
    (buildIPRouteQuery "10.0.0.0/24" "").getParam "destination.address" = some "10.0.0.0/24" ∧
    (buildIPRouteQuery "10.0.0.0/24" "").getParam "scope" = some "cluster" ∧
    (buildIPRouteQuery "10.0.0.0/24" "").getParam "svm.name" = none ∧
    (buildIPRouteQuery "10.0.0.0/24" "svm1").getParam "svm.name" = some "svm1" ∧
    (buildIPRouteQuery "10.0.0.0/24" "svm1").getParam "scope" = some "svm" :=
  ⟨(getIPRoute_query_construction "10.0.0.0/24" "").1,
   ((getIPRoute_query_construction "10.0.0.0/24" "").2.1 rfl).1,
   ((getIPRoute_query_construction "10.0.0.0/24" "").2.1 rfl).2,
   ((getIPRoute_query_construction "10.0.0.0/24" "svm1").2.2 (by decide)).1,
   ((getIPRoute_query_construction "10.0.0.0/24" "svm1").2.2 (by decide)).2⟩

/-- C6: decoding is a lossless left inverse of encoding for IP route
records, so a `GetIPRoute` whose transport matches exactly one record (the
raw form of that record) returns that record decoded losslessly. -/
theorem ipRoute_encode_decode_roundtrip (r : IPRouteGetDataModelONTAP) :
    decodeIPRouteGet (encodeIPRouteGet r) = some r ∧
    ∀ (Destination svmName : String) (version : VersionModelONTAP) (status : Nat),
      GetIPRoute Destination svmName version
        (fun _ => GetNilOrOneRecord status [encodeIPRouteGet r]) = .ok r :=
  ⟨rfl, fun _ _ _ _ => rfl⟩

/-- C1 counterexample: `GetIPRoute` against a transport whose query matches
zero records (status 200, null record, no transport error) does not return
absence — it reports a classified error, contradicting the claim that a
zero-record Get returns a null record without error. -/
theorem getIPRoute_zero_records_error_cex :
    GetIPRoute "10.0.0.0/24" "" ⟨9, 11, 1⟩ (fun _ => GetNilOrOneRecord 200 []) =
      .error ⟨"error reading /network/ip/routes info",
              "error on GET /network/ip/routes: no response for GET /network/ip/routes, statusCode 200"⟩ :=
  rfl

/-- C1 (amended): when a Get query matches zero records, the transport
returns absence without error, but both operations report that absence as a
classified error: `GetIPRoute` converts the null record into a "no
response" transport error, and the snapshot data-source `Read` reports
"No snapshot found". -/
theorem get_zero_records_reported_as_error
    (Destination svmName : String) (version : VersionModelONTAP) (status : Nat)
    (data : StorageVolumeSnapshotDataSourceModel)
    (hn : data.Name.IsNull = false) (hu : data.VolumeUUID.IsNull = false) :
    GetIPRoute Destination svmName version (fun _ => GetNilOrOneRecord status []) =
      .error ⟨"error reading /network/ip/routes info",
              "error on GET /network/ip/routes: no response for GET /network/ip/routes, statusCode "
                ++ toString status⟩ ∧
    StorageVolumeSnapshotRead (some data) true [] =
      ([⟨"No snapshot found", "snapshot " ++ data.Name.ValueString ++ " not found."⟩], none) := by
  constructor
  · rfl
  · simp [StorageVolumeSnapshotRead, hn, hu, GetStorageVolumeSnapshots]

/-- C1 witness: the amended claim at destination "10.0.0.0/24",
cluster scope, version (9, 11, 1), status 200, and a snapshot
configuration named "snap1" for volume uuid "vol-uuid-1". -/
theorem get_zero_records_reported_as_error_witness :
    GetIPRoute "10.0.0.0/24" "" ⟨9, 11, 1⟩ (fun _ => GetNilOrOneRecord 200 []) =
      .error ⟨"error reading /network/ip/routes info",
              "error on GET /network/ip/routes: no response for GET /network/ip/routes, statusCode "
                ++ toString 200⟩ ∧
    StorageVolumeSnapshotRead
      (some ⟨.value "profile1", .null, .null, .null, .value "snap1", .null, .null, .null,
             .value "vol-uuid-1", .null⟩) true [] =
      ([⟨"No snapshot found", "snapshot snap1 not found."⟩], none) :=
  get_zero_records_reported_as_error "10.0.0.0/24" "" ⟨9, 11, 1⟩ 200
    ⟨.value "profile1", .null, .null, .null, .value "snap1", .null, .null, .null,
     .value "vol-uuid-1", .null⟩ rfl rfl

/-- C5: a `GetIPRoute` whose transport response contains more than one
record fails with the AmbiguousResult classified error and never returns
any record as the result. -/
theorem getIPRoute_multiple_records_ambiguous
    (Destination svmName : String) (version : VersionModelONTAP) (status : Nat)
    (records : List RawValue) (h : 1 < records.length) :
    (GetIPRoute Destination svmName version (fun _ => GetNilOrOneRecord status records) =
      .error ⟨"error reading /network/ip/routes info",
              "error on GET /network/ip/routes: AmbiguousResultError: more than one record, statusCode "
                ++ toString status⟩) ∧
    ∀ r : IPRouteGetDataModelONTAP,
      GetIPRoute Destination svmName version (fun _ => GetNilOrOneRecord status records) ≠
        .ok r := by
  match records with
  | [] => exact absurd h (by decide)
  | [r1] => exact absurd h (by simp)
  | r1 :: r2 :: rest =>
    refine ⟨rfl, fun r hc => ?_⟩
    rw [show GetIPRoute Destination svmName version
          (fun _ => GetNilOrOneRecord status (r1 :: r2 :: rest)) =
        Except.error ⟨"error reading /network/ip/routes info",
          "error on GET /network/ip/routes: AmbiguousResultError: more than one record, statusCode "
            ++ toString status⟩ from rfl] at hc
    exact Except.noConfusion hc

/-- C5 witness: a transport response with two records makes `GetIPRoute`
fail with the AmbiguousResult classified error. -/
theorem getIPRoute_multiple_records_ambiguous_witness :
    GetIPRoute "10.0.0.0/24" "" ⟨9, 11, 1⟩
      (fun _ => GetNilOrOneRecord 200 [.obj [], .obj []]) =
      .error ⟨"error reading /network/ip/routes info",
              "error on GET /network/ip/routes: AmbiguousResultError: more than one record, statusCode "
                ++ toString 200⟩ :=
  (getIPRoute_multiple_records_ambiguous "10.0.0.0/24" "" ⟨9, 11, 1⟩ 200
    [.obj [], .obj []] (by decide)).1

/-- C2: `CreateIPRoute` with a transport that reports success (no error)
but returns an empty record list reaches the unguarded access to
`response.Records[0]` and panics; it does not fail with a classified
EmptyResponseError. -/
theorem createIPRoute_empty_records_panics :
    CreateIPRoute ⟨⟨"10.0.0.0", "24"⟩, ⟨"svm1"⟩, "10.0.0.1", 20⟩
      (fun _ _ => ⟨201, ⟨[]⟩, none⟩) = CreateOutcome.indexPanic :=
  rfl

/-- C4: a Delete on the IP route resource whose prior state has a null
UUID reports the validation error ("UUID is null",
"ip_interface UUID is null") and performs no transport delete call
(`DeleteIPRoute` is never invoked). -/
theorem ipRouteDelete_null_uuid_validation
    (data : IPRouteResourceModel) (transport : String → RestDeleteResult)
    (h : data.UUID.IsNull = true) :
    IPRouteResourceDelete (some data) true transport =
      ([⟨"UUID is null", "ip_interface UUID is null"⟩], []) := by
  simp [IPRouteResourceDelete, h]

/-- C4 witness: a prior state with a null UUID makes Delete report the
validation error with an empty transport-call trace. -/
theorem ipRouteDelete_null_uuid_validation_witness :
    IPRouteResourceDelete
      (some ⟨.value "profile1", .value "svm1", none, .null, .null, .null⟩) true
      (fun _ => ⟨200, none⟩) =
      ([⟨"UUID is null", "ip_interface UUID is null"⟩], []) :=
  ipRouteDelete_null_uuid_validation
    ⟨.value "profile1", .value "svm1", none, .null, .null, .null⟩
    (fun _ => ⟨200, none⟩) rfl

/-- C8: for every failing transport interaction, `GetIPRoute`,
`CreateIPRoute` and `DeleteIPRoute` hand the error handler a classified
error whose summary is a stable string (independent of the failure) and
whose detail contains both the API path and the HTTP status code. -/
theorem transport_errors_carry_status_and_path
    (Destination svmName : String) (version : VersionModelONTAP)
    (status : Nat) (e : String) (resp : Option RawValue)
    (body : IPRouteResourceBodyDataModelONTAP) (env : CreateResponse) (uuid : String) :
    (GetIPRoute Destination svmName version (fun _ => ⟨status, resp, some e⟩) =
      .error ⟨"error reading /network/ip/routes info",
              "error on GET /network/ip/routes: " ++ e ++ ", statusCode " ++ toString status⟩ ∧
      strContains ("error on GET /network/ip/routes: " ++ e ++ ", statusCode " ++ toString status)
        "/network/ip/routes" ∧
      strContains ("error on GET /network/ip/routes: " ++ e ++ ", statusCode " ++ toString status)
        (toString status)) ∧
    (CreateIPRoute body (fun _ _ => ⟨status, env, some e⟩) =
      .err ⟨"error creating /network/ip/routes",
            "error on POST /network/ip/routes: " ++ e ++ ", statusCode " ++ toString status⟩ ∧
      strContains ("error on POST /network/ip/routes: " ++ e ++ ", statusCode " ++ toString status)
        "/network/ip/routes" ∧
      strContains ("error on POST /network/ip/routes: " ++ e ++ ", statusCode " ++ toString status)
        (toString status)) ∧
    ((DeleteIPRoute uuid (fun _ => ⟨status, some e⟩)).1 =
      some ⟨"error deleting /network/ip/routes",
            "error on DELETE /network/ip/routes: " ++ e ++ ", statusCode " ++ toString status⟩ ∧
      strContains ("error on DELETE /network/ip/routes: " ++ e ++ ", statusCode " ++ toString status)
        "/network/ip/routes" ∧
      strContains ("error on DELETE /network/ip/routes: " ++ e ++ ", statusCode " ++ toString status)
        (toString status)) := by
  refine ⟨⟨rfl, ?_, ?_⟩, ⟨rfl, ?_, ?_⟩, ⟨rfl, ?_, ?_⟩⟩
  · exact ⟨"error on GET ", ": " ++ e ++ ", statusCode " ++ toString status, rfl⟩
  · exact ⟨"error on GET /network/ip/routes: " ++ e ++ ", statusCode ", "",
      by rw [String.append_empty]⟩
  · exact ⟨"error on POST ", ": " ++ e ++ ", statusCode " ++ toString status, rfl⟩
  · exact ⟨"error on POST /network/ip/routes: " ++ e ++ ", statusCode ", "",
      by rw [String.append_empty]⟩
  · exact ⟨"error on DELETE ", ": " ++ e ++ ", statusCode " ++ toString status, rfl⟩
  · exact ⟨"error on DELETE /network/ip/routes: " ++ e ++ ", statusCode ", "",
      by rw [String.append_empty]⟩

/-- C9: an Update on the IP route resource performs no transport call and
the resulting Terraform state equals the planned data unchanged. -/
theorem ipRouteUpdate_no_transport_unchanged_state (data : IPRouteResourceModel) :
    IPRouteResourceUpdate (some data) = (some data, []) :=
  rfl

/-- C10: a successful Read of the IP route resource overwrites only the
destination, gateway, metric and svm-name fields of the state model from
the transport response; the UUID and the connection-profile name are
carried over from the prior state unchanged. -/
theorem ipRouteRead_frame
    (data : IPRouteResourceModel) (destination : ProviderDestinationModel)
    (version : VersionModelONTAP) (transport : Query → RestGetResult)
    (restInfo : IPRouteGetDataModelONTAP)
    (hdest : data.Destination = some destination)
    (hget : GetIPRoute destination.Address.ValueString data.SVMName.ValueString version transport
      = .ok restInfo) :
    (IPRouteResourceRead (some data) true (some version) transport =
      .newState { data with
        Destination := some ⟨TFString.StringValue restInfo.Destination.Address,
                             TFString.StringValue restInfo.Destination.Netmask⟩,
        Gateway := TFString.StringValue restInfo.Gateway,
        Metric := TFInt64.Int64Value restInfo.Metric,
        SVMName := TFString.StringValue restInfo.SVMName.Name }) ∧
    ∀ newData, IPRouteResourceRead (some data) true (some version) transport = .newState newData →
      newData.UUID = data.UUID ∧ newData.CxProfileName = data.CxProfileName := by
  have h1 : IPRouteResourceRead (some data) true (some version) transport =
      .newState { data with
        Destination := some ⟨TFString.StringValue restInfo.Destination.Address,
                             TFString.StringValue restInfo.Destination.Netmask⟩,
        Gateway := TFString.StringValue restInfo.Gateway,
        Metric := TFInt64.Int64Value restInfo.Metric,
        SVMName := TFString.StringValue restInfo.SVMName.Name } := by
    simp [IPRouteResourceRead, hdest, hget]
  refine ⟨h1, fun newData hnd => ?_⟩
  rw [h1] at hnd
  have heq := ReadOutcome.newState.inj hnd
  rw [← heq]
  exact ⟨rfl, rfl⟩

/-- C10 witness: a concrete successful Read (one matching record on the
transport) produces the new state with destination, gateway, metric and
svm-name taken from the response and UUID and profile name unchanged. -/
theorem ipRouteRead_frame_witness :
    IPRouteResourceRead
      (some ⟨.value "profile1", .value "svm1", some ⟨.value "10.0.0.0", .value "24"⟩,
             .null, .null, .value "uuid-1"⟩)
      true (some ⟨9, 11, 1⟩)
      (fun _ => ⟨200,
        some (encodeIPRouteGet ⟨⟨"10.0.0.0", "24"⟩, "uuid-1", "10.0.0.1", 20, ⟨"svm1"⟩⟩),
        none⟩) =
      .newState ⟨.value "profile1", .value "svm1",
                 some ⟨.value "10.0.0.0", .value "24"⟩,
                 .value "10.0.0.1", .value 20, .value "uuid-1"⟩ :=
  (ipRouteRead_frame
    ⟨.value "profile1", .value "svm1", some ⟨.value "10.0.0.0", .value "24"⟩,
     .null, .null, .value "uuid-1"⟩
    ⟨.value "10.0.0.0", .value "24"⟩ ⟨9, 11, 1⟩
    (fun _ => ⟨200,
      some (encodeIPRouteGet ⟨⟨"10.0.0.0", "24"⟩, "uuid-1", "10.0.0.1", 20, ⟨"svm1"⟩⟩),
      none⟩)
    ⟨⟨"10.0.0.0", "24"⟩, "uuid-1", "10.0.0.1", 20, ⟨"svm1"⟩⟩ rfl rfl).1

end NetAppOntap
